import Mathlib

/-!
Shallow embedding of `src/server/services/databricksService.js` (the
Databricks LLM proxy service of the MSKCC hackathon chatbot) and proofs of
the specification claims about it.

Modelling conventions:
* JavaScript strings are `String`; a possibly-`undefined` value is `Option`.
* JavaScript numbers relevant here are modelled as `ℚ` (only finite decimal
  literals and `0` occur in the claims).
* The JavaScript `||` operator on a possibly-absent value is modelled by
  `jsOrStr` / `jsOrNum`, which treat `none`, the empty string and `0` as
  falsy, exactly as JavaScript does.
* A thrown `Error` is an `Except.error` carrying the error message string.
* The HTTP transport is a parameter: functions that `await` a POST take the
  transport outcome as an explicit argument.
-/

/-- A chat message as handled by the service: `{ role, content }`. -/
structure Msg where
  role : String
  content : String
deriving DecidableEq, Repr

/-- JavaScript `a || b` where `a` is a possibly-absent string:
`undefined` and `""` are falsy. -/
def jsOrStr (a : Option String) (b : String) : String :=
  match a with
  | none => b
  | some s => if s = "" then b else s

/-- JavaScript `a || b` where `a` is a possibly-absent number:
`undefined` and `0` are falsy. -/
def jsOrNum (a : Option ℚ) (b : ℚ) : ℚ :=
  match a with
  | none => b
  | some x => if x = 0 then b else x

/-- The fixed English instruction from the `instructions` table. -/
def enInstruction : String :=
  "Respond in English with a warm, supportive tone."

/-- The fixed Spanish instruction from the `instructions` table. -/
def esInstruction : String :=
  "Responde en español con un tono cálido y de apoyo. Usa un lenguaje claro y accesible."

/-- The fixed Arabic instruction from the `instructions` table. -/
def arInstruction : String :=
  "أجب باللغة العربية بنبرة دافئة وداعمة. استخدم لغة واضحة ومفهومة."

/-- The fixed Chinese instruction from the `instructions` table. -/
def zhInstruction : String :=
  "用中文回答，语调温暖支持。使用清晰易懂的语言。"

/-- The fixed Portuguese instruction from the `instructions` table. -/
def ptInstruction : String :=
  "Responda em português com um tom caloroso e de apoio. Use linguagem clara e acessível."

/-- The property names every plain object literal inherits from
`Object.prototype`, in a standard JavaScript environment: a bracket lookup
`instructions[key]` with one of these keys finds the inherited member
(eleven methods, and for `__proto__` the accessor yielding the prototype
object) even though the literal has no own property of that name. -/
def objectPrototypeKeys : List String :=
  [ "constructor", "hasOwnProperty", "isPrototypeOf", "propertyIsEnumerable"
  , "toLocaleString", "toString", "valueOf"
  , "__defineGetter__", "__defineSetter__", "__lookupGetter__", "__lookupSetter__"
  , "__proto__" ]

/-- A value that `instructions[language]` can evaluate to: one of the own
string entries of the literal, or a member inherited from
`Object.prototype` (a function, or for `__proto__` an object) — which is
truthy but not one of the instruction strings. -/
inductive JsLookupValue where
  | str (s : String)
  | protoMember (name : String)
deriving DecidableEq, Repr

/-- `getLanguageInstruction(language)`: evaluates
`instructions[language] || instructions.en` on the 5-entry object literal.
An own entry is a non-empty string, hence truthy, and is returned; a key
naming an `Object.prototype` member finds the inherited member through the
prototype chain, which is also truthy, so the `||` fallback does not fire
and the inherited (non-string) member is returned; only a key that is
neither an own entry nor a prototype member evaluates to `undefined` and
falls back to the English entry. -/
def getLanguageInstruction (language : String) : JsLookupValue :=
  if language = "en" then .str enInstruction
  else if language = "es" then .str esInstruction
  else if language = "ar" then .str arInstruction
  else if language = "zh" then .str zhInstruction
  else if language = "pt" then .str ptInstruction
  else if language ∈ objectPrototypeKeys then .protoMember language
  else .str enInstruction

/-- JavaScript template-literal interpolation of the lookup value, as
performed when `formatMessages` embeds `languageInstruction` into the
system-message template: a string interpolates as itself; an inherited
native function renders as its source form, and the `__proto__` object as
`[object Object]`. -/
def jsValueToString (v : JsLookupValue) : String :=
  match v with
  | .str s => s
  | .protoMember name =>
      if name = "__proto__" then "[object Object]"
      else "function " ++ name ++ "() \x7b [native code] \x7d"

/-- The part of the system-message template literal before
`${languageInstruction}` (product persona and role rules), transcribed from
the source, including the trailing blank line. -/
def mskPersona : String :=
  "You are MSK Assistant, a helpful AI assistant for Memorial Sloan Kettering Cancer Center\x27s Young Adult Program. \n\nYour role:\n- Provide information about MSK services, appointments, costs, and young adult cancer support\n- Be warm, supportive, and professional\n- Avoid medical advice - always refer to care teams for medical questions\n- Keep responses concise and actionable\n- Include relevant action buttons when helpful (Call, Schedule, Resources)\n\n"

/-- The part of the system-message template literal after
`${languageInstruction}` (the behavioral safety guidelines), transcribed
from the source, including the leading blank line. -/
def mskGuidelines : String :=
  "\n\nImportant guidelines:\n- Never provide medical diagnoses or treatment advice\n- Always encourage users to contact their care team for medical questions\n- For emergencies, direct to 911 or emergency services\n- Protect user privacy - don\x27t store or request personal information\n- If asked about topics outside MSK services, politely redirect to relevant MSK resources"

/-- The content of the system message pushed by `formatMessages`: the
template literal with `languageInstruction` interpolated. -/
def systemContent (languageInstruction : String) : String :=
  mskPersona ++ languageInstruction ++ mskGuidelines

/-- The system message pushed first by `formatMessages`. -/
def systemMessage (languageInstruction : String) : Msg :=
  { role := "system", content := systemContent languageInstruction }

/-- The role filter applied to the caller-supplied history:
`msg.role === "user" || msg.role === "assistant"`. -/
def isConversationRole (m : Msg) : Bool :=
  m.role = "user" || m.role = "assistant"

/-- `formatMessages(messages, languageInstruction)`: pushes the system
message, then for each history entry whose role is exactly `user` or
`assistant` pushes a fresh `{ role, content }` object. -/
def formatMessages (messages : List Msg) (languageInstruction : String) : List Msg :=
  systemMessage languageInstruction ::
    (messages.filter isConversationRole).map (fun m => { role := m.role, content := m.content })

theorem formatMessages_map_id (messages : List Msg) :
    (messages.filter isConversationRole).map
      (fun m => ({ role := m.role, content := m.content } : Msg)) =
      messages.filter isConversationRole := by
  induction messages with
  | nil => rfl
  | cons m ms ih =>
    by_cases h : isConversationRole m
    · simp [List.filter_cons, h, List.map_cons, ih]
    · simp only [Bool.not_eq_true] at h
      simp [List.filter_cons, h, ih]

/-- **C1.** For every input history and locale instruction, `formatMessages`
returns exactly one leading system-role message, whose content concatenates
the persona, the locale instruction and the safety guidelines, followed by
exactly the subsequence of input entries whose role is `user` or
`assistant`, in original order with original content; any other role is
dropped, and the output length is `1 +` the number of user/assistant
entries. Re-filtering the appended tail changes nothing. -/
theorem formatMessages_spec (messages : List Msg) (languageInstruction : String) :
    formatMessages messages languageInstruction =
      ({ role := "system",
         content := mskPersona ++ languageInstruction ++ mskGuidelines } : Msg) ::
        messages.filter isConversationRole ∧
    (messages.filter isConversationRole).Sublist messages ∧
    (∀ m ∈ messages.filter isConversationRole,
      m.role = "user" ∨ m.role = "assistant") ∧
    (messages.filter isConversationRole).filter isConversationRole =
      messages.filter isConversationRole ∧
    (formatMessages messages languageInstruction).length =
      1 + (messages.filter isConversationRole).length := by
  refine ⟨?_, List.filter_sublist _, ?_, ?_, ?_⟩
  · unfold formatMessages systemMessage systemContent
    rw [formatMessages_map_id]
  · intro m hm
    have := List.of_mem_filter hm
    simp only [isConversationRole, Bool.or_eq_true, decide_eq_true_eq] at this
    exact this
  · simp [List.filter_filter]
  · unfold formatMessages
    simp [List.length_map, Nat.add_comm]

/-- **C2, counterexample.** The claim asserts that every input string
outside the five supported codes returns the English instruction. The
input `toString` is outside the five codes, yet the bracket lookup finds
the truthy `Object.prototype.toString` member through the prototype chain,
so the function returns that inherited member, not the English
instruction. -/
theorem getLanguageInstruction_claim_counterexample :
    getLanguageInstruction "toString" = JsLookupValue.protoMember "toString" ∧
    getLanguageInstruction "toString" ≠ JsLookupValue.str enInstruction := by
  have h : getLanguageInstruction "toString" = JsLookupValue.protoMember "toString" := rfl
  refine ⟨h, ?_⟩
  rw [h]
  intro hc
  exact JsLookupValue.noConfusion hc

/-- **C2, amended.** `getLanguageInstruction` is a total function over
arbitrary string inputs that never throws: for each of the five supported
codes it returns that exact fixed instruction string, and for every other
input string that is not the name of an `Object.prototype` member
(including the empty string) it returns the English instruction; for an
input naming an `Object.prototype` member (such as `toString`,
`constructor`, `hasOwnProperty` or `__proto__`) the lookup finds the
truthy inherited member, so the English fallback does not fire and the
function returns that non-string member instead. -/
theorem getLanguageInstruction_amended_spec :
    getLanguageInstruction "en" = .str enInstruction ∧
    getLanguageInstruction "es" = .str esInstruction ∧
    getLanguageInstruction "ar" = .str arInstruction ∧
    getLanguageInstruction "zh" = .str zhInstruction ∧
    getLanguageInstruction "pt" = .str ptInstruction ∧
    (∀ language : String, language ∉ (["en", "es", "ar", "zh", "pt"] : List String) →
      language ∉ objectPrototypeKeys →
      getLanguageInstruction language = .str enInstruction) ∧
    (∀ language : String, language ∉ (["en", "es", "ar", "zh", "pt"] : List String) →
      language ∈ objectPrototypeKeys →
      getLanguageInstruction language = .protoMember language) := by
  refine ⟨rfl, rfl, rfl, rfl, rfl, ?_, ?_⟩
  · intro language h hproto
    simp only [List.mem_cons, List.not_mem_nil, or_false, not_or] at h
    obtain ⟨h1, h2, h3, h4, h5⟩ := h
    simp [getLanguageInstruction, h1, h2, h3, h4, h5, hproto]
  · intro language h hproto
    simp only [List.mem_cons, List.not_mem_nil, or_false, not_or] at h
    obtain ⟨h1, h2, h3, h4, h5⟩ := h
    simp [getLanguageInstruction, h1, h2, h3, h4, h5, hproto]

/-- Witness for the amended C2: the unsupported code `fr` and the empty
string resolve to the English instruction, while `hasOwnProperty` resolves
to the inherited prototype member. -/
theorem getLanguageInstruction_amended_spec_witness :
    getLanguageInstruction "fr" = .str enInstruction ∧
    getLanguageInstruction "" = .str enInstruction ∧
    getLanguageInstruction "hasOwnProperty" = .protoMember "hasOwnProperty" :=
  ⟨getLanguageInstruction_amended_spec.2.2.2.2.2.1 "fr" (by decide) (by decide),
   getLanguageInstruction_amended_spec.2.2.2.2.2.1 "" (by decide) (by decide),
   getLanguageInstruction_amended_spec.2.2.2.2.2.2 "hasOwnProperty" (by decide) (by decide)⟩

/-- The shape of a caught transport error, as inspected by the `catch`
block of `sendMessage`: `error.response?.status`, `error.code`, and
`error.message`. -/
structure TransportError where
  status : Option Nat
  code : Option String
  message : String
deriving DecidableEq, Repr

/-- Message thrown for HTTP 401. -/
def authErrorMsg : String :=
  "Authentication failed - check your Databricks PAT token"

/-- Message thrown for HTTP 429. -/
def rateLimitErrorMsg : String :=
  "Rate limit exceeded - please try again later"

/-- Message thrown for HTTP status at least 500. -/
def unavailableErrorMsg : String :=
  "Databricks service is temporarily unavailable"

/-- Message thrown for the `ECONNABORTED` timeout signal. -/
def timeoutErrorMsg : String :=
  "Request timeout - the service took too long to respond"

/-- Message thrown by the final generic branch:
`Databricks API error: ${error.message}`. -/
def genericErrorMsg (originalMessage : String) : String :=
  "Databricks API error: " ++ originalMessage

/-- Whether `error.response?.status >= 500` holds (in JavaScript the
comparison is `false` when the status is `undefined`). -/
def statusAtLeast500 (status : Option Nat) : Bool :=
  match status with
  | none => false
  | some s => 500 ≤ s

/-- The `catch` block of `sendMessage`, branch for branch: `401`, then
`429`, then `>= 500`, then `ECONNABORTED`, then the generic message. -/
def classifyError (e : TransportError) : String :=
  if e.status = some 401 then authErrorMsg
  else if e.status = some 429 then rateLimitErrorMsg
  else if statusAtLeast500 e.status then unavailableErrorMsg
  else if e.code = some "ECONNABORTED" then timeoutErrorMsg
  else genericErrorMsg e.message

/-- **C3, counterexample.** The claim asserts that a timeout signal yields
the timeout error only when no HTTP status is present, and that every error
outside the four listed categories yields the generic provider error
containing the original message. The error with status 404 and code
`ECONNABORTED` is outside all four listed categories (its status is
present, so the claimed timeout category does not apply), yet the code
classifies it as the timeout error, not the generic one. -/
theorem classifyError_claim_counterexample :
    classifyError { status := some 404, code := some "ECONNABORTED",
                    message := "socket hang up" } = timeoutErrorMsg ∧
    timeoutErrorMsg ≠ genericErrorMsg "socket hang up" := by
  constructor
  · rfl
  · decide

/-- **C3, amended.** Error classification in `sendMessage` is a pure
function of status and error code: 401 always yields the
authentication-failure error, 429 the rate-limit error, any status at least
500 the temporarily-unavailable error; a timeout signal (`ECONNABORTED`)
yields the timeout error whenever the status is absent or is neither 401,
429 nor at least 500 — not only when the status is absent; and every error
matching none of these conditions yields the generic provider error whose
message includes the message of the original error. -/
theorem classifyError_amended_spec (e : TransportError) :
    (e.status = some 401 → classifyError e = authErrorMsg) ∧
    (e.status = some 429 → classifyError e = rateLimitErrorMsg) ∧
    (∀ s, e.status = some s → 500 ≤ s → classifyError e = unavailableErrorMsg) ∧
    (e.status ≠ some 401 → e.status ≠ some 429 → (∀ s, e.status = some s → s < 500) →
      e.code = some "ECONNABORTED" → classifyError e = timeoutErrorMsg) ∧
    (e.status ≠ some 401 → e.status ≠ some 429 → (∀ s, e.status = some s → s < 500) →
      e.code ≠ some "ECONNABORTED" → classifyError e = genericErrorMsg e.message) := by
  refine ⟨?_, ?_, ?_, ?_, ?_⟩
  · intro h; simp [classifyError, h]
  · intro h; simp [classifyError, h, statusAtLeast500]
  · intro s hs h500
    have h1 : e.status ≠ some 401 := by
      rw [hs]; intro hc; injection hc with hc; omega
    have h2 : e.status ≠ some 429 := by
      rw [hs]; intro hc; injection hc with hc; omega
    have hne1 : s ≠ 401 := by omega
    have hne2 : s ≠ 429 := by omega
    simp [classifyError, h1, h2, statusAtLeast500, hs, h500, hne1, hne2]
  · intro h1 h2 hlt hcode
    have hlow : statusAtLeast500 e.status = false := by
      cases hst : e.status with
      | none => rfl
      | some s =>
        have := hlt s hst
        simp [statusAtLeast500]
        omega
    simp [classifyError, h1, h2, hlow, hcode]
  · intro h1 h2 hlt hcode
    have hlow : statusAtLeast500 e.status = false := by
      cases hst : e.status with
      | none => rfl
      | some s =>
        have := hlt s hst
        simp [statusAtLeast500]
        omega
    simp [classifyError, h1, h2, hlow, hcode]

/-- Witness for the amended C3: a timeout signal carrying status 408
classifies as the timeout error, and a plain connection error with no
status and no code classifies as the generic error around its message. -/
theorem classifyError_amended_spec_witness :
    classifyError { status := some 408, code := some "ECONNABORTED",
                    message := "timeout of 30000ms exceeded" } = timeoutErrorMsg ∧
    classifyError { status := none, code := some "ENOTFOUND",
                    message := "getaddrinfo ENOTFOUND" } =
      genericErrorMsg "getaddrinfo ENOTFOUND" := by
  constructor
  · exact (classifyError_amended_spec _).2.2.2.1 (by decide) (by decide)
      (by intro s hs; injection hs with hs; omega) rfl
  · exact (classifyError_amended_spec _).2.2.2.2 (by decide) (by decide)
      (by intro s hs; exact Option.noConfusion hs) (by decide)

/-- **C4, counterexample.** The claim asserts that an error carrying both
an HTTP status of at least 500 and the `ECONNABORTED` timeout signal is
classified as the timeout error. The code checks the status first: at
status 500 with code `ECONNABORTED` it produces the temporarily-unavailable
error, which is not the timeout error. -/
theorem classify500Timeout_counterexample :
    classifyError { status := some 500, code := some "ECONNABORTED",
                    message := "timeout of 30000ms exceeded" } = unavailableErrorMsg ∧
    unavailableErrorMsg ≠ timeoutErrorMsg := by
  constructor
  · rfl
  · decide

/-- **C4, amended.** For every transport failure that simultaneously
carries an HTTP status of at least 500 and a timeout signal
(`ECONNABORTED`), `sendMessage` classifies it as the temporarily-unavailable
error, because the status-code check precedes the timeout check in the
classification order. -/
theorem classify500Timeout_spec (e : TransportError) (s : Nat)
    (hs : e.status = some s) (h500 : 500 ≤ s)
    (_hcode : e.code = some "ECONNABORTED") :
    classifyError e = unavailableErrorMsg := by
  have h1 : e.status ≠ some 401 := by
    rw [hs]; intro hc; injection hc with hc; omega
  have h2 : e.status ≠ some 429 := by
    rw [hs]; intro hc; injection hc with hc; omega
  have hne1 : s ≠ 401 := by omega
  have hne2 : s ≠ 429 := by omega
  simp [classifyError, h1, h2, statusAtLeast500, hs, h500, hne1, hne2]

/-- Witness for the amended C4: the error with status 500 and code
`ECONNABORTED` classifies as the temporarily-unavailable error. -/
theorem classify500Timeout_spec_witness :
    classifyError { status := some 503, code := some "ECONNABORTED",
                    message := "timeout of 30000ms exceeded" } = unavailableErrorMsg :=
  classify500Timeout_spec _ 503 rfl (by decide) rfl

/-- The caller-supplied `options` object of `sendMessage`; each field may be
absent. -/
structure RequestOptions where
  maxTokens : Option ℚ
  temperature : Option ℚ
  topP : Option ℚ
deriving DecidableEq, Repr

/-- The `options` default `{}`: all fields absent. -/
def emptyOptions : RequestOptions :=
  { maxTokens := none, temperature := none, topP := none }

/-- The JSON payload `sendMessage` POSTs to the endpoint. -/
structure Payload where
  messages : List Msg
  max_tokens : ℚ
  temperature : ℚ
  top_p : ℚ
  stream : Bool
deriving DecidableEq, Repr

/-- The payload construction of `sendMessage`: formatted messages plus
`options.maxTokens || 1000`, `options.temperature || 0.7`,
`options.topP || 0.9`, `stream: false`. -/
def buildPayload (messages : List Msg) (language : String)
    (options : RequestOptions) : Payload :=
  { messages := formatMessages messages (jsValueToString (getLanguageInstruction language))
  , max_tokens := jsOrNum options.maxTokens 1000
  , temperature := jsOrNum options.temperature (7 / 10)
  , top_p := jsOrNum options.topP (9 / 10)
  , stream := false }

/-- One element of the `content` array of the provider response; its `text`
field may be absent. -/
structure ContentItem where
  text : Option String
deriving DecidableEq, Repr

/-- The provider response body `response.data`; every field may be absent. -/
structure ResponseData where
  content : Option (List ContentItem)
  message : Option String
  usage : Option String
  model : Option String
deriving DecidableEq, Repr

/-- `response.data.content?.[0]?.text`: absent when the `content` array is
absent, empty, or its first element has no `text` field. -/
def firstContentText (d : ResponseData) : Option String :=
  match d.content with
  | none => none
  | some [] => none
  | some (item :: _) => item.text

/-- The object `sendMessage` resolves with on success. -/
structure NormalizedReply where
  content : String
  usage : Option String
  model : String
  timestamp : String
deriving DecidableEq, Repr

/-- The success branch of `sendMessage` on a present response body:
`content` from the extraction chain
`data.content?.[0]?.text || data.message || "No response content"`,
`usage` passed through (`|| null`), `model` defaulted to
`claude-3-sonnet`, plus the current timestamp. -/
def normalizeData (d : ResponseData) (now : String) : NormalizedReply :=
  { content := jsOrStr (firstContentText d) (jsOrStr d.message "No response content")
  , usage := d.usage
  , model := jsOrStr d.model "claude-3-sonnet"
  , timestamp := now }

/-- Outcome of `this.client.post("", payload)` inside `sendMessage`: either
a response whose `data` field may still be absent, or a thrown transport
error. -/
inductive TransportOutcome where
  | success (data : Option ResponseData)
  | failure (e : TransportError)
deriving DecidableEq, Repr

/-- Message of the error thrown when `response.data` is falsy. -/
def emptyResponseMsg : String :=
  "No response data from Databricks"

/-- The normalization layer of `sendMessage`: an absent (falsy)
`response.data` raises the empty-response error; a present body always
normalizes successfully. -/
def normalizeResponse (data : Option ResponseData) (now : String) :
    Except String NormalizedReply :=
  match data with
  | none => .error emptyResponseMsg
  | some d => .ok (normalizeData d now)

/-- The try/catch body of `sendMessage` from the POST onward: a present
body is normalized; an absent body raises the empty-response error inside
the `try`, which the `catch` block then classifies like any other caught
error (a plain `Error` has no `response` and no `code`); a transport
failure is classified directly. -/
def sendMessageResult (outcome : TransportOutcome) (now : String) :
    Except String NormalizedReply :=
  match outcome with
  | .success data =>
      match normalizeResponse data now with
      | .ok r => .ok r
      | .error m =>
          .error (classifyError { status := none, code := none, message := m })
  | .failure e => .error (classifyError e)

/-- The whole of `sendMessage`, with the transport outcome and the clock as
explicit parameters: builds the payload from the history, the language and
the options, then produces the result of the try/catch body. -/
def sendMessage (messages : List Msg) (language : String)
    (options : RequestOptions) (outcome : TransportOutcome) (now : String) :
    Payload × Except String NormalizedReply :=
  (buildPayload messages language options, sendMessageResult outcome now)

/-- **C7, counterexample.** The claim asserts that the `temperature` field
of the outgoing payload equals the caller-supplied `options.temperature` whenever it
is supplied. Supplying `temperature: 0` yields the default `0.7` instead,
because option presence is tested with `||`. -/
theorem buildPayload_claim_counterexample :
    (buildPayload [] "en"
      { maxTokens := none, temperature := some 0, topP := none }).temperature = 7 / 10 ∧
    (7 / 10 : ℚ) ≠ 0 := by
  constructor
  · rfl
  · norm_num

/-- **C7, amended.** For every call to `sendMessage`, the outgoing payload
contains `stream: false`, and `max_tokens`, `temperature`, `top_p` equal
the caller-supplied `options.maxTokens`, `options.temperature`,
`options.topP` when those options are supplied with a nonzero value, and
equal the defaults 1000, 0.7, 0.9 when they are omitted (or supplied as the
falsy value 0). -/
theorem buildPayload_options_spec (messages : List Msg) (language : String)
    (options : RequestOptions) :
    (buildPayload messages language options).stream = false ∧
    (options.maxTokens = none →
      (buildPayload messages language options).max_tokens = 1000) ∧
    (∀ x, options.maxTokens = some x → x ≠ 0 →
      (buildPayload messages language options).max_tokens = x) ∧
    (options.temperature = none →
      (buildPayload messages language options).temperature = 7 / 10) ∧
    (∀ x, options.temperature = some x → x ≠ 0 →
      (buildPayload messages language options).temperature = x) ∧
    (options.topP = none →
      (buildPayload messages language options).top_p = 9 / 10) ∧
    (∀ x, options.topP = some x → x ≠ 0 →
      (buildPayload messages language options).top_p = x) := by
  refine ⟨rfl, ?_, ?_, ?_, ?_, ?_, ?_⟩
  · intro h; simp [buildPayload, jsOrNum, h]
  · intro x hx h0; simp [buildPayload, jsOrNum, hx, h0]
  · intro h; simp [buildPayload, jsOrNum, h]
  · intro x hx h0; simp [buildPayload, jsOrNum, hx, h0]
  · intro h; simp [buildPayload, jsOrNum, h]
  · intro x hx h0; simp [buildPayload, jsOrNum, hx, h0]

/-- Witness for the amended C7: supplied nonzero options pass through and
omitted ones take the defaults, on a concrete call. -/
theorem buildPayload_options_spec_witness :
    (buildPayload [] "en"
      { maxTokens := some 50, temperature := none, topP := some (1 / 2) }).max_tokens = 50 ∧
    (buildPayload [] "en"
      { maxTokens := some 50, temperature := none, topP := some (1 / 2) }).temperature = 7 / 10 ∧
    (buildPayload [] "en"
      { maxTokens := some 50, temperature := none, topP := some (1 / 2) }).top_p = 1 / 2 ∧
    (buildPayload [] "en"
      { maxTokens := some 50, temperature := none, topP := some (1 / 2) }).stream = false := by
  refine ⟨?_, ?_, ?_, ?_⟩
  · exact (buildPayload_options_spec [] "en" _).2.2.1 50 rfl (by norm_num)
  · exact (buildPayload_options_spec [] "en" _).2.2.2.1 rfl
  · exact (buildPayload_options_spec [] "en" _).2.2.2.2.2.2 (1 / 2) rfl (by norm_num)
  · exact (buildPayload_options_spec [] "en" _).1

/-- **C9.** Option presence is tested by truthiness: supplying
`maxTokens: 0`, `temperature: 0` or `topP: 0` produces the default 1000,
0.7 or 0.9 in the payload, never the supplied zero, whatever the other
fields are. -/
theorem buildPayload_zero_options_spec (messages : List Msg) (language : String)
    (t p m : Option ℚ) :
    (buildPayload messages language
      { maxTokens := some 0, temperature := t, topP := p }).max_tokens = 1000 ∧
    (buildPayload messages language
      { maxTokens := m, temperature := some 0, topP := p }).temperature = 7 / 10 ∧
    (buildPayload messages language
      { maxTokens := m, temperature := t, topP := some 0 }).top_p = 9 / 10 ∧
    (buildPayload messages language
      { maxTokens := some 0, temperature := some 0, topP := some 0 }) =
      buildPayload messages language emptyOptions := by
  refine ⟨rfl, rfl, rfl, ?_⟩
  simp [buildPayload, emptyOptions, jsOrNum]

/-- **C6.** For every present response body, normalization never raises:
it always succeeds, taking the content from the `text` field of the first
element of the `content` array when that is present (and non-empty, the source
testing presence with `||`), else from the top-level `message` field, else
the fixed string `No response content`; the sole error at this layer is the
empty-response error, raised exactly when the body itself is absent. -/
theorem normalizeResponse_spec (d : ResponseData) (now : String) :
    (∃ r, normalizeResponse (some d) now = Except.ok r) ∧
    (∀ t, firstContentText d = some t → t ≠ "" →
      (normalizeData d now).content = t) ∧
    (firstContentText d = none → ∀ m, d.message = some m → m ≠ "" →
      (normalizeData d now).content = m) ∧
    (firstContentText d = none → d.message = none →
      (normalizeData d now).content = "No response content") ∧
    normalizeResponse none now = Except.error emptyResponseMsg := by
  refine ⟨⟨normalizeData d now, rfl⟩, ?_, ?_, ?_, rfl⟩
  · intro t ht h0
    simp [normalizeData, jsOrStr, ht, h0]
  · intro hnone m hm h0
    simp [normalizeData, jsOrStr, hnone, hm, h0]
  · intro hnone hmsg
    simp [normalizeData, jsOrStr, hnone, hmsg]

/-- Witness for C6: a body whose `content` array is empty and whose
`message` field is absent normalizes to the fallback string, a body with a
text entry keeps it, and an absent body raises the empty-response error. -/
theorem normalizeResponse_spec_witness :
    (normalizeData { content := some [], message := none, usage := none,
                     model := none } "2024-01-01T00:00:00.000Z").content =
      "No response content" ∧
    (normalizeData { content := some [{ text := some "Hello" }], message := none,
                     usage := none, model := none } "2024-01-01T00:00:00.000Z").content =
      "Hello" ∧
    normalizeResponse none "2024-01-01T00:00:00.000Z" = Except.error emptyResponseMsg := by
  refine ⟨?_, ?_, ?_⟩
  · exact (normalizeResponse_spec _ _).2.2.2.1 rfl rfl
  · exact (normalizeResponse_spec _ _).2.1 "Hello" rfl (by decide)
  · exact (normalizeResponse_spec ⟨none, none, none, none⟩ _).2.2.2.2

/-- **C10.** When the POST succeeds but the response body is absent,
`sendMessage` rejects with the generic provider error whose message is
`Databricks API error: No response data from Databricks`: the internally
thrown empty-response error carries no HTTP status and no code, so the
classification in the catch block falls through every specific branch to the
generic one, and no distinct empty-response error reaches the caller. -/
theorem sendMessage_emptyBody_spec (messages : List Msg) (language : String)
    (options : RequestOptions) (now : String) :
    (sendMessage messages language options (.success none) now).2 =
      Except.error "Databricks API error: No response data from Databricks" ∧
    (sendMessage messages language options (.success none) now).2 =
      Except.error (genericErrorMsg emptyResponseMsg) := by
  exact ⟨rfl, rfl⟩

/-- The probe object `healthCheck` POSTs: two fixed messages,
`max_tokens: 10`, `temperature: 0`. -/
structure HealthProbe where
  messages : List Msg
  max_tokens : ℚ
  temperature : ℚ
deriving DecidableEq, Repr

/-- The `testMessage` payload built by `healthCheck`. -/
def healthProbe : HealthProbe :=
  { messages :=
      [ { role := "system",
          content := "You are a test assistant. Respond with \x22OK\x22 only." }
      , { role := "user", content := "Health check" } ]
  , max_tokens := 10
  , temperature := 0 }

/-- Outcome of the POST inside `healthCheck`: an HTTP response with its
status code, or a thrown error with its message. -/
inductive HealthOutcome where
  | success (status : Nat)
  | failure (message : String)
deriving DecidableEq, Repr

/-- The object `healthCheck` resolves with; fields absent in one of the two
branches are `Option`s. -/
structure HealthStatus where
  status : String
  response : Option Bool
  error : Option String
  timestamp : String
deriving DecidableEq, Repr

/-- `healthCheck()`: the try branch returns `healthy` with
`response.status === 200`; the catch branch swallows any thrown error and
returns `unhealthy` with the error message. The clock is a parameter. -/
def healthCheck (outcome : HealthOutcome) (now : String) : HealthStatus :=
  match outcome with
  | .success s =>
      { status := "healthy", response := some (s == 200), error := none, timestamp := now }
  | .failure m =>
      { status := "unhealthy", response := none, error := some m, timestamp := now }

/-- **C5.** `healthCheck` never propagates an exception: it is a total
function into `HealthStatus`, whose `status` field is always exactly
`healthy` (on transport success) or `unhealthy` (on any thrown error, with
the message of that error), together with the timestamp taken from the clock;
and the probe it sends has exactly 2 messages, `max_tokens` 10 and
`temperature` 0. -/
theorem healthCheck_spec (outcome : HealthOutcome) (now : String) :
    ((healthCheck outcome now).status = "healthy" ∨
      (healthCheck outcome now).status = "unhealthy") ∧
    (∀ s, outcome = .success s → (healthCheck outcome now).status = "healthy") ∧
    (∀ m, outcome = .failure m → (healthCheck outcome now).status = "unhealthy" ∧
      (healthCheck outcome now).error = some m) ∧
    (healthCheck outcome now).timestamp = now ∧
    healthProbe.messages.length = 2 ∧
    healthProbe.max_tokens = 10 ∧
    healthProbe.temperature = 0 := by
  refine ⟨?_, ?_, ?_, ?_, rfl, rfl, rfl⟩
  · cases outcome with
    | success s => left; rfl
    | failure m => right; rfl
  · intro s hs; subst hs; rfl
  · intro m hm; subst hm; exact ⟨rfl, rfl⟩
  · cases outcome with
    | success s => rfl
    | failure m => rfl

/-- Witness for C5: a 200 response reports `healthy`; a thrown timeout
reports `unhealthy` carrying the thrown message. -/
theorem healthCheck_spec_witness :
    (healthCheck (.success 200) "2024-01-01T00:00:00.000Z").status = "healthy" ∧
    (healthCheck (.failure "timeout of 30000ms exceeded") "2024-01-01T00:00:00.000Z").status =
      "unhealthy" ∧
    (healthCheck (.failure "timeout of 30000ms exceeded") "2024-01-01T00:00:00.000Z").error =
      some "timeout of 30000ms exceeded" := by
  refine ⟨?_, ?_, ?_⟩
  · exact (healthCheck_spec (.success 200) _).2.1 200 rfl
  · exact ((healthCheck_spec (.failure "timeout of 30000ms exceeded") _).2.2.1
      "timeout of 30000ms exceeded" rfl).1
  · exact ((healthCheck_spec (.failure "timeout of 30000ms exceeded") _).2.2.1
      "timeout of 30000ms exceeded" rfl).2

/-- A constructed service instance: an instance exists only once the
constructor has returned, so every instance that accepts calls carries the
endpoint and credential validated at construction. -/
structure DatabricksService where
  endpoint : String
  pat : String
deriving DecidableEq, Repr

/-- The configuration error thrown by the constructor. -/
def configErrorMsg : String :=
  "DATABRICKS_ENDPOINT and DATABRICKS_PAT must be set in environment variables"

/-- The `DatabricksService` constructor: reads the two environment values
(each possibly absent) and throws eagerly — before the axios client is even
created, hence before any call — when `!this.endpoint || !this.pat`, i.e.
when either value is absent or the empty string. -/
def mkDatabricksService (endpointEnv patEnv : Option String) :
    Except String DatabricksService :=
  match endpointEnv, patEnv with
  | some e, some p =>
      if e = "" ∨ p = "" then .error configErrorMsg
      else .ok { endpoint := e, pat := p }
  | none, _ => .error configErrorMsg
  | _, none => .error configErrorMsg

/-- **C8.** Construction fails with the configuration error exactly when
the endpoint URL or the bearer credential is absent or empty; the check is
eager, at construction: a service instance (which exists only through a
successful construction) always carries a non-empty endpoint and a
non-empty credential, the very values supplied. -/
theorem mkDatabricksService_spec (endpointEnv patEnv : Option String) :
    (mkDatabricksService endpointEnv patEnv = Except.error configErrorMsg ↔
      (endpointEnv = none ∨ endpointEnv = some "" ∨
        patEnv = none ∨ patEnv = some "")) ∧
    (∀ s, mkDatabricksService endpointEnv patEnv = Except.ok s →
      s.endpoint ≠ "" ∧ s.pat ≠ "" ∧
        endpointEnv = some s.endpoint ∧ patEnv = some s.pat) := by
  constructor
  · constructor
    · intro h
      cases he : endpointEnv with
      | none => exact Or.inl rfl
      | some e =>
        cases hp : patEnv with
        | none => exact Or.inr (Or.inr (Or.inl rfl))
        | some p =>
          rw [he, hp] at h
          simp only [mkDatabricksService] at h
          by_cases hcase : e = "" ∨ p = ""
          · rcases hcase with h1 | h2
            · exact Or.inr (Or.inl (by rw [h1]))
            · exact Or.inr (Or.inr (Or.inr (by rw [h2])))
          · rw [if_neg hcase] at h
            exact absurd h (by simp)
    · intro h
      rcases h with h | h | h | h
      · rw [h]; cases patEnv <;> rfl
      · rw [h]
        cases patEnv with
        | none => rfl
        | some p => simp [mkDatabricksService]
      · rw [h]; cases endpointEnv <;> rfl
      · rw [h]
        cases endpointEnv with
        | none => rfl
        | some e => simp [mkDatabricksService]
  · intro s h
    cases he : endpointEnv with
    | none => rw [he] at h; exact absurd h (by simp [mkDatabricksService])
    | some e =>
      cases hp : patEnv with
      | none => rw [he, hp] at h; exact absurd h (by simp [mkDatabricksService])
      | some p =>
        rw [he, hp] at h
        simp only [mkDatabricksService] at h
        by_cases hcase : e = "" ∨ p = ""
        · rw [if_pos hcase] at h; exact absurd h (by simp)
        · rw [if_neg hcase] at h
          push_neg at hcase
          obtain ⟨he0, hp0⟩ := hcase
          injection h with h
          subst h
          exact ⟨he0, hp0, rfl, rfl⟩

/-- Witness for C8: construction succeeds on a concrete non-empty endpoint
and credential, producing an instance with exactly those non-empty values,
and fails on an empty credential. -/
theorem mkDatabricksService_spec_witness :
    ((⟨"https://dbc.example.com/serving-endpoints/msk/invocations", "dapi123"⟩ :
        DatabricksService).endpoint ≠ "" ∧
      (⟨"https://dbc.example.com/serving-endpoints/msk/invocations", "dapi123"⟩ :
        DatabricksService).pat ≠ "") ∧
    mkDatabricksService (some "https://dbc.example.com/serving-endpoints/msk/invocations")
      (some "") = Except.error configErrorMsg := by
  constructor
  · have h := (mkDatabricksService_spec
      (some "https://dbc.example.com/serving-endpoints/msk/invocations")
      (some "dapi123")).2
      ⟨"https://dbc.example.com/serving-endpoints/msk/invocations", "dapi123"⟩
      (by simp [mkDatabricksService])
    exact ⟨h.1, h.2.1⟩
  · exact (mkDatabricksService_spec _ _).1.2 (Or.inr (Or.inr (Or.inr rfl)))

/-- Witness for C1: on a concrete history holding one user turn, one stray
system turn and one assistant turn, the formatted list keeps exactly the
user and assistant turns after the single system message, and each kept
member has a conversation role. -/
theorem formatMessages_spec_witness :
    (formatMessages
        [ { role := "user", content := "How do I schedule an appointment?" }
        , { role := "system", content := "injected" }
        , { role := "assistant", content := "You can call the office." } ]
        enInstruction).length =
      1 + ([ ({ role := "user", content := "How do I schedule an appointment?" } : Msg)
           , { role := "system", content := "injected" }
           , { role := "assistant", content := "You can call the office." } ].filter
             isConversationRole).length ∧
    (({ role := "user", content := "How do I schedule an appointment?" } : Msg).role = "user" ∨
      ({ role := "user", content := "How do I schedule an appointment?" } : Msg).role =
        "assistant") := by
  constructor
  · exact (formatMessages_spec _ enInstruction).2.2.2.2
  · exact (formatMessages_spec
      [ { role := "user", content := "How do I schedule an appointment?" }
      , { role := "system", content := "injected" }
      , { role := "assistant", content := "You can call the office." } ]
      enInstruction).2.2.1 _ (by decide)
